import Mathlib

/-!
# Verification of the sci-storm backend adapter, retry policy and orchestration

Shallow embedding of `sci_storm` (engine/backend.py, engine/inference.py,
tools/tavily.py, tools/kisti_mcp.py, pipeline/cli.py) together with proofs of
the spec claims about it.

Conventions:
* Python dicts parsed from JSON are modelled as association lists with unique
  keys; `dict.get` is first-match lookup.
* Python float `retry_backoff` is modelled as `ℚ`; the claims only multiply it
  by small integers, which is exact in binary floating point as well.
* Exceptions are modelled with `Except`/`Option`; an escaping Python exception
  is an `Except.error` carrying the exception message (`str(exc)`).
-/

namespace SciStorm

/-- A JSON value, as produced by `response.json()`. -/
inductive JValue where
  | null : JValue
  | bool (b : Bool) : JValue
  | num (q : ℚ) : JValue
  | str (s : String) : JValue
  | arr (items : List JValue) : JValue
  | obj (fields : List (String × JValue)) : JValue

/-- Python `dict.get(key)` on a JSON object's fields (keys are unique, so
first-match lookup); `none` models Python `None` / a missing key. -/
def jlookup (fields : List (String × JValue)) (key : String) : Option JValue :=
  (fields.find? (fun p => p.1 == key)).map (fun p => p.2)

/-- Python truthiness of a JSON value (`if x:`). -/
def JValue.truthy : JValue → Bool
  | .null => false
  | .bool b => b
  | .num q => q != 0
  | .str s => s != ""
  | .arr items => !items.isEmpty
  | .obj fields => !fields.isEmpty

/-- `config.BackendConfig` (config.py).  `max_retries` is a Python `int`;
non-positive values all make `range(1, max_retries + 1)` empty, so `Nat`
with `0` is a faithful model of that degenerate case. -/
structure BackendConfig where
  provider : String := "ollama"
  model : String := "gpt-oss:20b"
  base_url : String := "http://localhost:11434"
  api_key : Option String := none
  request_timeout : Nat := 60
  max_retries : Nat := 3
  retry_backoff : ℚ := 2

/-- The exceptions that can escape one invocation of the wrapped request
function inside `BaseBackendClient._retry_loop` (backend.py):
`BackendRetryableError` (5xx), `requests.RequestException` (transport),
`BackendError` (other non-2xx), and any other exception (e.g.
`AttributeError` while digging into a malformed payload). -/
inductive BackendErr where
  | retryable (msg : String) : BackendErr
  | requestException (msg : String) : BackendErr
  | backendError (msg : String) : BackendErr
  | other (msg : String) : BackendErr

/-- `str(exc)`: the message carried by the exception. -/
def BackendErr.msg : BackendErr → String
  | .retryable m => m
  | .requestException m => m
  | .backendError m => m
  | .other m => m

/-- Whether `_retry_loop`'s `except BackendRetryableError` /
`except RequestException` clauses catch the exception (and hence sleep and
retry); `BackendError` and any other exception propagate immediately. -/
def BackendErr.catchable : BackendErr → Bool
  | .retryable _ => true
  | .requestException _ => true
  | .backendError _ => false
  | .other _ => false

/-- Outcome of `BaseBackendClient._retry_loop`, instrumented with the number
of invocations of the wrapped function and the recorded `time.sleep`
durations (in seconds, in order).  `result = none` models the Python
function falling off the end of an empty loop and returning `None`. -/
structure RetryResult (α : Type) where
  result : Option (Except BackendErr α)
  attempts : Nat
  sleeps : List ℚ

/-- One outcome per attempt number (the `fn()` call made at attempt `k`
yields `server k`). -/
def Server (α : Type) : Type := Nat → Except BackendErr α

/-- The body of `_retry_loop` over the remaining attempt numbers `ks`:
on success return; on a catchable exception record `sleep(backoff * k)` and
continue with `last_error` overwritten; on any other exception it propagates
out of the loop at once. -/
def retryAux (backoff : ℚ) (server : Server α) :
    List Nat → Option BackendErr → Nat → List ℚ → RetryResult α
  | [], lastError, att, sl => ⟨lastError.map Except.error, att, sl⟩
  | k :: rest, _, att, sl =>
    match server k with
    | .ok v => ⟨some (.ok v), att + 1, sl⟩
    | .error e =>
      if e.catchable then
        retryAux backoff server rest (some e) (att + 1) (sl ++ [backoff * (k : ℚ)])
      else ⟨some (.error e), att + 1, sl⟩

/-- `BaseBackendClient._retry_loop` (backend.py lines 47-59): attempts are
numbered `1, …, max_retries`; after the loop the last caught error (if any)
is re-raised, otherwise `None` is returned. -/
def retry_loop (cfg : BackendConfig) (server : Server α) : RetryResult α :=
  retryAux cfg.retry_backoff server (List.range' 1 cfg.max_retries) none 0 []

/-- The raw payload attached to a `BackendResponse`. -/
def rawError (msg : String) : JValue := .obj [("error", .str msg)]

/-- `backend.BackendResponse`. -/
structure BackendResponse where
  content : String
  raw : JValue

/-- `BaseBackendClient._wrap_result` (backend.py lines 32-39): any exception
escaping the retry loop is converted into an error-marked `BackendResponse`;
`none` models `_retry_loop` returning `None` (possible only when
`max_retries = 0`, i.e. zero attempts). -/
def wrap_result (cfg : BackendConfig) (server : Server BackendResponse) :
    Option BackendResponse :=
  match (retry_loop cfg server).result with
  | some (.ok r) => some r
  | some (.error e) => some ⟨"[Backend error] " ++ e.msg, rawError e.msg⟩
  | none => none

/-- A flat rendering of a JSON value.  Models `json.dumps(v, indent=2)` up to
whitespace/escaping (no claim depends on the rendered text of a non-string
value); also used to coerce to `String` fields whose value Python would keep
as a raw non-string object. -/
def JValue.dumps : JValue → String
  | .null => "null"
  | .bool true => "true"
  | .bool false => "false"
  | .num q => toString q
  | .str s => "\"" ++ s ++ "\""
  | .arr items => "[" ++ String.intercalate ", "
      (items.attach.map (fun x => x.1.dumps)) ++ "]"
  | .obj fields => "\x7b" ++ String.intercalate ", "
      (fields.attach.map (fun x => "\"" ++ x.1.1 ++ "\": " ++ x.1.2.dumps)) ++ "\x7d"
decreasing_by
  · have := List.sizeOf_lt_of_mem x.2
    simp_all
    omega
  · have h1 := List.sizeOf_lt_of_mem x.2
    obtain ⟨⟨a, b⟩, hx⟩ := x
    simp_all
    omega

/-- `requests`' `Response.ok`: `raise_for_status` raises exactly for
`400 <= status_code < 600`. -/
def responseOk (status : Nat) : Bool :=
  decide (status < 400) || decide (600 ≤ status)

/-- One HTTP exchange as seen by a client: either `requests.post` raised a
`RequestException`, or a response arrived with a status code, a body text and
the result of `response.json()` (`none` when the body is not valid JSON, in
which case `.json()` raises a request-library decode error, modelled as a
transport-class exception). -/
inductive HTTPExchange where
  | transportError (msg : String) : HTTPExchange
  | response (status : Nat) (text : String) (json : Option JValue) : HTTPExchange

/-- `data.get(key, default)` where `data` must be a dict (otherwise Python
raises `AttributeError`, which is neither retryable nor a `BackendError`). -/
def pyDictGetD (data : JValue) (key : String) (dflt : JValue) :
    Except BackendErr JValue :=
  match data with
  | .obj fields => .ok ((jlookup fields key).getD dflt)
  | _ => .error (.other "AttributeError")

/-- Coerce a JSON value standing for generated text to `String`.  Fields like
`message.content` are strings in practice; a non-string value would be stored
untouched by Python and is rendered here. -/
def jText : JValue → String
  | .str s => s
  | v => v.dumps

/-- The inner `_request` of `OllamaClient.generate` (backend.py lines 76-89),
as a function of the HTTP exchange: 5xx raises `BackendRetryableError(text)`,
any other non-ok status raises `BackendError(text)`, otherwise the reply is
`data.get("message", {}).get("content", "")` with the full payload as `raw`. -/
def ollamaRequest (ex : HTTPExchange) : Except BackendErr BackendResponse :=
  match ex with
  | .transportError m => .error (.requestException m)
  | .response status text json =>
    if 500 ≤ status then .error (.retryable text)
    else if responseOk status then
      match json with
      | none => .error (.requestException "JSONDecodeError")
      | some data =>
        match pyDictGetD data "message" (.obj []) with
        | .error e => .error e
        | .ok message =>
          match pyDictGetD message "content" (.str "") with
          | .error e => .error e
          | .ok content => .ok ⟨jText content, data⟩
    else .error (.backendError text)

/-- `OllamaClient.generate`: the retry-wrapped request against a sequence of
HTTP exchanges (one per attempt). -/
def ollamaGenerate (cfg : BackendConfig) (exchanges : Nat → HTTPExchange) :
    Option BackendResponse :=
  wrap_result cfg (fun k => ollamaRequest (exchanges k))

/-! ## BackendAdapter (backend.py lines 128-156)

Both `OllamaClient` and `VLLMClient` are constructed over the *same*
`BackendConfig` object as the adapter (`self.clients = {... Client(config)}`),
so mutating `self.config.model` in `switch` is observed by every client.  The
adapter state is therefore one shared config plus the active provider. -/

/-- The keys of `BackendAdapter.clients`. -/
def recognizedProviders : List String := ["ollama", "vllm"]

/-- Mutable state of a `BackendAdapter` (shared config + active provider). -/
structure AdapterState where
  config : BackendConfig
  active_provider : String

/-- `BackendAdapter.__init__`: rejects an unrecognized provider. -/
def mkAdapter (cfg : BackendConfig) : Except String AdapterState :=
  if cfg.provider ∈ recognizedProviders then .ok ⟨cfg, cfg.provider⟩
  else .error ("Unsupported provider: " ++ cfg.provider)

/-- Python truthiness of the optional `model` argument (`if model:`). -/
def modelTruthy : Option String → Bool
  | none => false
  | some m => m != ""

/-- `BackendAdapter.switch` (backend.py lines 141-146).  The first component
is the raised error (if any); the second is the state after the call —
unchanged when the provider is rejected, since the `ValueError` is raised
before any assignment. -/
def switch (s : AdapterState) (provider : String) (model : Option String) :
    Except String Unit × AdapterState :=
  if provider ∈ recognizedProviders then
    (.ok (),
      { active_provider := provider,
        config :=
          match model with
          | some m => if m != "" then { s.config with model := m } else s.config
          | none => s.config })
  else (.error ("Unsupported provider: " ++ provider), s)

/-- The `"model"` field of the JSON payload built by the active client's next
`generate` call (`payload = {"model": self.config.model, ...}`). -/
def payloadModel (s : AdapterState) : String :=
  s.config.model

/-! ## TavilySearchClient (tools/tavily.py) -/

/-- `tavily.TavilySource`. -/
structure TavilySource where
  title : String
  url : String
  content : String

/-- `tavily.TavilyResult`. -/
structure TavilyResult where
  query : String
  sources : List TavilySource
  error : Option String := none

/-- Python truthiness of the stored API key (`if not self.api_key:`):
`None` and `""` are falsy. -/
def keyTruthy : Option String → Bool
  | none => false
  | some k => k != ""

/-- One item of `data["results"]` turned into a `TavilySource`
(`item.get(..., default)`); a non-dict item makes `item.get` raise. -/
def tavilyItem (item : JValue) : Except String TavilySource :=
  match item with
  | .obj fields =>
    .ok ⟨jText ((jlookup fields "title").getD (.str "untitled")),
         jText ((jlookup fields "url").getD (.str "")),
         jText ((jlookup fields "content").getD (.str ""))⟩
  | _ => .error "AttributeError"

/-- Iterating `for item in results` and appending sources.  Iterating a
non-list raises unless the value has no elements at all (an empty dict or
empty string iterates zero times). -/
def tavilySources (results : JValue) : Except String (List TavilySource) :=
  match results with
  | .arr items => items.mapM tavilyItem
  | .obj [] => .ok []
  | .str "" => .ok []
  | .obj _ => .error "AttributeError"
  | .str _ => .error "AttributeError"
  | _ => .error "TypeError"

/-- The `try:` block of `TavilySearchClient.search` (tavily.py lines 39-70);
an `Except.error` is an exception reaching the `except Exception` clause. -/
def tavilyTry (query : String) (ex : HTTPExchange) : Except String TavilyResult :=
  match ex with
  | .transportError m => .error m
  | .response status text json =>
    if responseOk status then
      match json with
      | none => .error "JSONDecodeError"
      | some (JValue.obj fields) =>
        match tavilySources ((jlookup fields "results").getD (.arr [])) with
        | .error m => .error m
        | .ok sources =>
          if sources.isEmpty then
            .ok ⟨query, [], some "Tavily search returned no results."⟩
          else
            .ok ⟨query, sources, none⟩
      | some _ => .error "AttributeError"
    else
      .ok ⟨query, [], some ("Tavily search failed: " ++ text)⟩

/-- `TavilySearchClient.search` (tavily.py lines 31-76) as a function of the
effective API key and the HTTP exchange that `requests.post` would produce. -/
def tavilySearch (apiKey : Option String) (query : String) (ex : HTTPExchange) :
    TavilyResult :=
  if keyTruthy apiKey then
    match tavilyTry query ex with
    | .ok r => r
    | .error m =>
      ⟨query, [],
       some ("Tavily search unreachable; continuing without live search. ("
             ++ m ++ ")")⟩
  else
    ⟨query, [], some "Tavily API key not configured; skipping live search."⟩

/-! ## KISTIMCPClient.interpret_result (tools/kisti_mcp.py lines 83-98) -/

/-- `result.get(key)` on the raw execution mapping (default `None`). -/
def mcpGet (result : List (String × JValue)) (key : String) : JValue :=
  (jlookup result key).getD .null

/-- Python `a or b`. -/
def pyOr (a b : JValue) : JValue :=
  if a.truthy then a else b

/-- `result.get("logs") or result.get("stderr") or ""`. -/
def logsOf (result : List (String × JValue)) : JValue :=
  pyOr (pyOr (mcpGet result "logs") (mcpGet result "stderr")) (.str "")

/-- `result.get("stdout") or result.get("result") or ""`. -/
def outputOf (result : List (String × JValue)) : JValue :=
  pyOr (pyOr (mcpGet result "stdout") (mcpGet result "result")) (.str "")

/-- `result.get("summary") or ""`. -/
def summaryOf (result : List (String × JValue)) : JValue :=
  pyOr (mcpGet result "summary") (.str "")

/-- `output if isinstance(output, str) else json.dumps(output, indent=2)`. -/
def outputBody : JValue → String
  | .str s => s
  | v => v.dumps

/-- `summary or "The MCP server did not return an explicit summary."`: the
second slot of the parts list.  The summary slot holds a string in practice;
a non-string truthy value is rendered (Python would fail later in `join`). -/
def summaryText (result : List (String × JValue)) : String :=
  if (summaryOf result).truthy then jText (summaryOf result)
  else "The MCP server did not return an explicit summary."

/-- The `parts` list built by `interpret_result`, including the conditional
logs extension. -/
def interpret_parts (result : List (String × JValue)) : List String :=
  let logs := logsOf result
  let base : List String :=
    ["### MCP Execution Summary",
     summaryText result,
     "",
     "### Output",
     outputBody (outputOf result)]
  if logs.truthy then base ++ ["", "### Logs", jText logs] else base

/-- `KISTIMCPClient.interpret_result`. -/
def interpret_result (result : List (String × JValue)) : String :=
  String.intercalate "\n" (interpret_parts result)

/-! ## Outline-section extractor (pipeline/cli.py lines 118-126)

The string operations are implemented over the character list of the string
(the library versions operate on byte positions and do not evaluate inside
the kernel): `pyStrip` is `str.strip()` for ASCII whitespace (the inputs of
the claims contain no exotic whitespace), `splitLines` is `str.splitlines()`
for LF line boundaries (Python additionally drops a final empty chunk after a
trailing newline; such a chunk is not a heading line, so the extractor is
unaffected). -/

/-- `str.strip()`: drop whitespace from both ends. -/
def pyStrip (s : String) : String :=
  String.mk (((s.data.dropWhile Char.isWhitespace).reverse.dropWhile
    Char.isWhitespace).reverse)

/-- Helper of `splitLines`, accumulating the current line reversed. -/
def splitLinesAux : List Char → List Char → List String
  | [], acc => [String.mk acc.reverse]
  | c :: rest, acc =>
    if c = '\n' then String.mk acc.reverse :: splitLinesAux rest []
    else splitLinesAux rest (c :: acc)

/-- `str.splitlines()` for LF-separated text. -/
def splitLines (s : String) : List String :=
  splitLinesAux s.data []

/-- The loop body of `_parse_outline_sections` for one line: `some title`
when the stripped line starts with `#` and the title left after removing the
leading `#` marks is non-empty. -/
def headingTitle (line : String) : Option String :=
  let stripped := pyStrip line
  if stripped.data.head? = some '#' then
    let title := pyStrip (String.mk (stripped.data.dropWhile (fun c => c = '#')))
    if title ≠ "" then some title else none
  else none

/-- `_parse_outline_sections`. -/
def parse_outline_sections (outline : String) : List String :=
  let sections := (splitLines outline).filterMap headingTitle
  if sections.isEmpty then ["Executive Summary"] else sections

/-! ## Collaborative dialogue (engine/inference.py lines 138-168)

The engine sends each persona's prompt as a single user message through
`_safe_generate`/`BackendAdapter.generate` and uses only `response.content`.
The backend is therefore modelled as an oracle `b : String → String` from the
user-prompt text to the reply content (which already accounts for
`_safe_generate`'s fallback text: the oracle yields whatever content string
comes back, error-annotated or not). -/

/-- `agents.expert_manager.ExpertProfile`. -/
structure ExpertProfile where
  name : String
  system_prompt : String
  focus : String := ""

/-- The default used by list lookups with `List.getD`; never reachable in the
claims (indices stay in bounds). -/
def defaultExpert : ExpertProfile := ⟨"", "", ""⟩

/-- The per-persona prompt built in the inner loop of
`collaborative_dialogue`: a function of only the persona's system prompt and
name and the immediately preceding message text. -/
def promptFor (e : ExpertProfile) (prev : String) : String :=
  e.system_prompt ++ "\n\nPrevious discussion:\n" ++ prev ++ "\n\nAs "
    ++ e.name ++ ", add, refine, or correct the discussion."

/-- One transcript entry: `f"{expert.name}: {response.content}"`. -/
def entryText (b : String → String) (e : ExpertProfile) (prev : String) : String :=
  e.name ++ ": " ++ b (promptFor e prev)

/-- The seeded message placed in `last_message` before the first pass
(`human_feedback or 'None provided.'`). -/
def seededPrompt (topic feedback : String) : String :=
  "Topic: " ++ topic ++ "\nHuman feedback: "
    ++ (if feedback = "" then "None provided." else feedback) ++ "\n"
    ++ "Consider prior turns to refine or challenge earlier points. Keep replies concise."

/-- One pass of the inner `for expert in self.expert_manager.experts` loop:
returns the entries appended during the pass and the final `last_message`. -/
def runExperts (b : String → String) :
    List ExpertProfile → String → List String × String
  | [], last => ([], last)
  | e :: rest, last =>
    let t := entryText b e last
    let r := runExperts b rest t
    (t :: r.1, r.2)

/-- The outer `for _ in range(turns)` loop. -/
def runTurns (b : String → String) (es : List ExpertProfile) :
    Nat → String → List String × String
  | 0, last => ([], last)
  | n + 1, last =>
    let r := runExperts b es last
    let r2 := runTurns b es n r.2
    (r.1 ++ r2.1, r2.2)

/-- `InferenceEngine.collaborative_dialogue`: the returned `history`. -/
def collaborative_dialogue (b : String → String) (es : List ExpertProfile)
    (topic : String) (feedback : String) (turns : Nat) : List String :=
  (runTurns b es turns (seededPrompt topic feedback)).1

/-! ## General helper lemmas -/

/-- A string with a non-empty left part is non-empty. -/
theorem append_ne_empty_left (s t : String) (hs : s ≠ "") : s ++ t ≠ "" := by
  intro h
  apply hs
  have hl := congrArg String.length h
  rw [String.length_append] at hl
  have hz : s.length = 0 := by
    have : String.length "" = 0 := rfl
    omega
  have hd : s.data.length = 0 := hz
  apply String.ext
  simpa using List.length_eq_zero.mp hd

/-! ## Claim C8: outline-section extractor -/

/-- **C8.** The section-title extractor returns exactly `["A", "B"]` on the
outline `"# A\n## B"`, and on any outline none of whose lines starts (after
stripping) with `#` it returns the single default section title
`["Executive Summary"]`. -/
theorem parse_outline_sections_spec :
    parse_outline_sections "# A\n## B" = ["A", "B"] ∧
    ∀ outline : String,
      (∀ line ∈ splitLines outline, (pyStrip line).data.head? ≠ some '#') →
      parse_outline_sections outline = ["Executive Summary"] := by
  refine ⟨by decide, ?_⟩
  intro outline h
  have hnil : (splitLines outline).filterMap headingTitle = [] := by
    rw [List.filterMap_eq_nil_iff]
    intro line hline
    simp only [headingTitle]
    rw [if_neg (h line hline)]
  simp [parse_outline_sections, hnil]

/-- Witness for C8 at the concrete heading-free outline
`"no headings\nplain"`. -/
theorem parse_outline_sections_spec_witness :
    parse_outline_sections "no headings\nplain" = ["Executive Summary"] :=
  parse_outline_sections_spec.2 "no headings\nplain" (by decide)

/-! ## Claim C5: provider switch -/

/-- **C5.** `switch(provider, model)` raises `ValueError` and leaves the
adapter state unchanged when `provider` is not one of the two recognized
values; on a recognized provider with no model override it succeeds, updates
the active provider, and leaves the configured model identifier — the one the
next `generate` call puts in its payload — unchanged. -/
theorem switch_spec :
    ∀ (s : AdapterState) (p : String) (mo : Option String),
      (p ∉ recognizedProviders →
        switch s p mo = (.error ("Unsupported provider: " ++ p), s)) ∧
      (p ∈ recognizedProviders →
        (switch s p none).1 = .ok () ∧
        (switch s p none).2.active_provider = p ∧
        (switch s p none).2.config.model = s.config.model ∧
        payloadModel (switch s p none).2 = payloadModel s) := by
  intro s p mo
  constructor
  · intro h
    simp [switch, h]
  · intro h
    simp [switch, h, payloadModel]

/-- Witness for C5: the provider `"openai"` is rejected without touching the
state, and switching a default adapter to `"vllm"` keeps the model. -/
theorem switch_spec_witness :
    switch ⟨{}, "ollama"⟩ "openai" none =
      (.error ("Unsupported provider: " ++ "openai"), ⟨{}, "ollama"⟩) ∧
    (switch ⟨{}, "ollama"⟩ "vllm" none).2.config.model =
      ({} : BackendConfig).model :=
  ⟨(switch_spec ⟨{}, "ollama"⟩ "openai" none).1 (by decide),
   ((switch_spec ⟨{}, "ollama"⟩ "vllm" none).2 (by decide)).2.2.1⟩

/-! ## Claim C9: both clients share the adapter's config object -/

/-- **C9.** Because both provider clients are constructed over the same
`BackendConfig` object, switching to `"vllm"` with model override `m` and
then back to `"ollama"` with no override leaves `m` as the model identifier
the ollama client's next payload uses — not the originally configured one. -/
theorem switch_shared_config_model :
    ∀ (s : AdapterState) (m : String), m ≠ "" →
      payloadModel (switch (switch s "vllm" (some m)).2 "ollama" none).2 = m ∧
      (switch (switch s "vllm" (some m)).2 "ollama" none).2.active_provider
        = "ollama" ∧
      (m ≠ s.config.model →
        payloadModel (switch (switch s "vllm" (some m)).2 "ollama" none).2
          ≠ s.config.model) := by
  intro s m hm
  have hm2 : (m != "") = true := by simpa using hm
  refine ⟨?_, ?_, ?_⟩ <;>
    simp [switch, recognizedProviders, payloadModel, hm2]

/-- Witness for C9 on a default-configured adapter and override `"m2"`. -/
theorem switch_shared_config_model_witness :
    payloadModel (switch (switch ⟨{}, "ollama"⟩ "vllm" (some "m2")).2
      "ollama" none).2 = "m2" ∧
    payloadModel (switch (switch ⟨{}, "ollama"⟩ "vllm" (some "m2")).2
      "ollama" none).2 ≠ ({} : BackendConfig).model :=
  ⟨(switch_shared_config_model ⟨{}, "ollama"⟩ "m2" (by decide)).1,
   (switch_shared_config_model ⟨{}, "ollama"⟩ "m2" (by decide)).2.2 (by decide)⟩

/-! ## Claim C6: the search client degrades to error-flagged results -/

/-- Every `TavilyResult` the `try:` block can return normally satisfies the
invariant: non-empty sources with no error, or a non-empty error message. -/
theorem tavilyTry_ok_invariant (q : String) (ex : HTTPExchange) (r : TavilyResult) :
    tavilyTry q ex = .ok r →
    (r.sources ≠ [] ∧ r.error = none) ∨ ∃ m, r.error = some m ∧ m ≠ "" := by
  intro h
  cases ex with
  | transportError m => simp [tavilyTry] at h
  | response status text json =>
    by_cases hok : responseOk status
    · cases json with
      | none => simp [tavilyTry, hok] at h
      | some data =>
        cases data with
        | obj fields =>
          simp only [tavilyTry, hok, if_true] at h
          cases hs : tavilySources ((jlookup fields "results").getD (.arr [])) with
          | error m => rw [hs] at h; simp at h
          | ok sources =>
            rw [hs] at h
            by_cases he : sources.isEmpty
            · simp only [he, if_true, Except.ok.injEq] at h
              right
              exact ⟨"Tavily search returned no results.", by rw [← h], by decide⟩
            · simp only [he, Bool.false_eq_true, if_false, Except.ok.injEq] at h
              left
              rw [← h]
              exact ⟨by simpa using he, rfl⟩
        | null => simp [tavilyTry, hok] at h
        | bool b => simp [tavilyTry, hok] at h
        | num n => simp [tavilyTry, hok] at h
        | str s => simp [tavilyTry, hok] at h
        | arr l => simp [tavilyTry, hok] at h
    · simp only [tavilyTry, hok, Bool.false_eq_true, if_false,
        Except.ok.injEq] at h
      right
      refine ⟨"Tavily search failed: " ++ text, by rw [← h], ?_⟩
      exact append_ne_empty_left _ _ (by decide)

/-- **C6.** The search client never raises: with no API key configured
(`None` or empty) it returns the fixed explanatory error with an empty source
list, and every result it returns has either a non-empty source list with no
error set, or a non-empty error string — never an empty, unflagged result. -/
theorem tavily_search_never_silent :
    ∀ (key : Option String) (q : String) (ex : HTTPExchange),
      (keyTruthy key = false →
        tavilySearch key q ex =
          ⟨q, [], some "Tavily API key not configured; skipping live search."⟩) ∧
      ((tavilySearch key q ex).sources ≠ [] ∧
        (tavilySearch key q ex).error = none ∨
        ∃ m, (tavilySearch key q ex).error = some m ∧ m ≠ "") := by
  intro key q ex
  constructor
  · intro hk
    simp [tavilySearch, hk]
  · by_cases hk : keyTruthy key
    · simp only [tavilySearch, hk, if_true]
      cases htry : tavilyTry q ex with
      | ok r => exact tavilyTry_ok_invariant q ex r htry
      | error m =>
        right
        refine ⟨_, rfl, ?_⟩
        exact append_ne_empty_left _ _
          (append_ne_empty_left _ _ (by decide))
    · simp only [tavilySearch, hk, Bool.false_eq_true, if_false]
      right
      exact ⟨_, rfl, by decide⟩

/-- Witness for C6: a client with no API key returns the fixed error result
even when the network would fail. -/
theorem tavily_search_never_silent_witness :
    tavilySearch none "q" (.transportError "boom") =
      ⟨"q", [], some "Tavily API key not configured; skipping live search."⟩ :=
  (tavily_search_never_silent none "q" (.transportError "boom")).1 rfl

/-! ## Claim C7: interpret_result report shape -/

/-- Counterexample to C7 as stated: on the empty raw result, which contains
no summary, no output and no logs, the report nevertheless contains the
summary section (with a fallback sentence) and the output section — so it is
not the case that each part is included only if present in the raw result. -/
theorem interpret_result_counterexample :
    jlookup ([] : List (String × JValue)) "summary" = none ∧
    jlookup ([] : List (String × JValue)) "stdout" = none ∧
    jlookup ([] : List (String × JValue)) "result" = none ∧
    interpret_parts []
      = ["### MCP Execution Summary",
         "The MCP server did not return an explicit summary.", "",
         "### Output", ""] ∧
    interpret_result []
      = "### MCP Execution Summary\nThe MCP server did not return an explicit summary.\n\n### Output\n" :=
  ⟨rfl, rfl, rfl, rfl, rfl⟩

/-- **C7 (amended).** `interpret_result` joins a parts list with line feeds;
the parts always contain the summary header followed by the raw summary when
it is truthy and by a fixed fallback sentence otherwise, and the output
header followed by the output body (empty when absent), and end with a logs
section exactly when the logs-or-stderr value is truthy. -/
theorem interpret_result_sections :
    ∀ result : List (String × JValue),
      interpret_result result = String.intercalate "\n" (interpret_parts result) ∧
      ((logsOf result).truthy = true →
        interpret_parts result =
          ["### MCP Execution Summary", summaryText result, "", "### Output",
           outputBody (outputOf result), "", "### Logs", jText (logsOf result)]) ∧
      ((logsOf result).truthy = false →
        interpret_parts result =
          ["### MCP Execution Summary", summaryText result, "", "### Output",
           outputBody (outputOf result)]) ∧
      ((summaryOf result).truthy = false →
        summaryText result
          = "The MCP server did not return an explicit summary.") ∧
      (∀ s, summaryOf result = .str s → s ≠ "" → summaryText result = s) := by
  intro result
  refine ⟨rfl, ?_, ?_, ?_, ?_⟩
  · intro hl
    simp [interpret_parts, hl]
  · intro hl
    simp [interpret_parts, hl]
  · intro hs
    simp [summaryText, hs]
  · intro s hsum hne
    have hs : (summaryOf result).truthy = true := by
      rw [hsum]
      simpa [JValue.truthy] using hne
    rw [summaryText, if_pos hs, hsum]
    rfl

/-- Witness for C7 (amended) at a concrete raw result carrying a summary, a
stdout body and logs. -/
theorem interpret_result_sections_witness :
    interpret_parts [("summary", .str "S"), ("logs", .str "L"),
        ("stdout", .str "O")]
      = ["### MCP Execution Summary", summaryText [("summary", .str "S"),
         ("logs", .str "L"), ("stdout", .str "O")], "", "### Output",
         outputBody (outputOf [("summary", .str "S"), ("logs", .str "L"),
         ("stdout", .str "O")]), "", "### Logs",
         jText (logsOf [("summary", .str "S"), ("logs", .str "L"),
         ("stdout", .str "O")])] ∧
    summaryText [("summary", .str "S"), ("logs", .str "L"),
        ("stdout", .str "O")] = "S" :=
  ⟨(interpret_result_sections _).2.1 rfl,
   (interpret_result_sections _).2.2.2.2 "S" rfl (by decide)⟩

/-! ## Retry-loop helper lemmas -/

/-- Whether the attempt numbered `k` fails with an exception the retry loop
catches (and therefore sleeps and retries on). -/
def catchFail (server : Server α) (k : Nat) : Bool :=
  match server k with
  | .ok _ => false
  | .error e => e.catchable

theorem retryAux_attempts_bounds (backoff : ℚ) (server : Server α) :
    ∀ (ks : List Nat) (le : Option BackendErr) (att : Nat) (sl : List ℚ),
      att ≤ (retryAux backoff server ks le att sl).attempts ∧
      (retryAux backoff server ks le att sl).attempts ≤ att + ks.length := by
  intro ks
  induction ks with
  | nil => intro le att sl; simp [retryAux]
  | cons k rest ih =>
    intro le att sl
    simp only [retryAux]
    cases hk : server k with
    | ok v => simp [List.length_cons]
    | error e =>
      by_cases hc : e.catchable
      · simp only [hc, if_true]
        have h := ih (some e) (att + 1) (sl ++ [backoff * (k : ℚ)])
        simp only [List.length_cons]
        omega
      · simp only [hc, Bool.false_eq_true, if_false, List.length_cons]
        omega

theorem retryAux_attempts_pos (backoff : ℚ) (server : Server α) :
    ∀ (ks : List Nat) (le : Option BackendErr) (att : Nat) (sl : List ℚ),
      ks ≠ [] → att + 1 ≤ (retryAux backoff server ks le att sl).attempts := by
  intro ks le att sl hne
  cases ks with
  | nil => exact absurd rfl hne
  | cons k rest =>
    simp only [retryAux]
    cases hk : server k with
    | ok v => simp
    | error e =>
      by_cases hc : e.catchable
      · simp only [hc, if_true]
        exact (retryAux_attempts_bounds backoff server rest (some e) (att + 1) _).1
      · simp [hc]

theorem retryAux_sleeps (backoff : ℚ) (server : Server α) :
    ∀ (ks : List Nat) (le : Option BackendErr) (att : Nat) (sl : List ℚ),
      (retryAux backoff server ks le att sl).sleeps =
        sl ++ ((ks.take ((retryAux backoff server ks le att sl).attempts - att)).filter
          (catchFail server)).map (fun k : Nat => backoff * (k : ℚ)) := by
  intro ks
  induction ks with
  | nil => intro le att sl; simp [retryAux]
  | cons k rest ih =>
    intro le att sl
    simp only [retryAux]
    cases hk : server k with
    | ok v =>
      have hcf : catchFail server k = false := by simp [catchFail, hk]
      simp [hcf]
    | error e =>
      by_cases hc : e.catchable
      · have hcf : catchFail server k = true := by simp [catchFail, hk, hc]
        simp only [hc, if_true]
        have hpos := retryAux_attempts_bounds backoff server rest (some e) (att + 1)
          (sl ++ [backoff * (k : ℚ)])
        have hstep :
            (retryAux backoff server rest (some e) (att + 1)
              (sl ++ [backoff * (k : ℚ)])).attempts - att =
            ((retryAux backoff server rest (some e) (att + 1)
              (sl ++ [backoff * (k : ℚ)])).attempts - (att + 1)) + 1 := by
          omega
        rw [hstep, List.take_succ_cons, List.filter_cons_of_pos (by simp [hcf]),
          List.map_cons, ih (some e) (att + 1) (sl ++ [backoff * (k : ℚ)])]
        simp
      · have hcf : catchFail server k = false := by simp [catchFail, hk, hc]
        simp [hc, hcf]

theorem retryAux_pre_catchable (backoff : ℚ) (server : Server α) :
    ∀ (ks : List Nat) (le : Option BackendErr) (att : Nat) (sl : List ℚ) (i : Nat),
      att + i + 1 < (retryAux backoff server ks le att sl).attempts →
      catchFail server (ks.getD i 0) = true := by
  intro ks
  induction ks with
  | nil =>
    intro le att sl i hi
    simp [retryAux] at hi
    omega
  | cons k rest ih =>
    intro le att sl i hi
    simp only [retryAux] at hi ⊢
    cases hk : server k with
    | ok v =>
      rw [hk] at hi
      simp at hi
    | error e =>
      rw [hk] at hi
      by_cases hc : e.catchable
      · simp only [hc, if_true] at hi
        cases i with
        | zero => simp [catchFail, hk, hc]
        | succ j =>
          simp only [List.getD_cons_succ]
          exact ih (some e) (att + 1) (sl ++ [backoff * (k : ℚ)]) j (by omega)
      · simp only [hc, Bool.false_eq_true, if_false] at hi
        omega

theorem retryAux_result_isSome (backoff : ℚ) (server : Server α) :
    ∀ (ks : List Nat) (le : Option BackendErr) (att : Nat) (sl : List ℚ),
      (le.isSome ∨ ks ≠ []) →
      (retryAux backoff server ks le att sl).result.isSome := by
  intro ks
  induction ks with
  | nil =>
    intro le att sl h
    rcases h with h | h
    · cases le with
      | none => simp at h
      | some e => simp [retryAux]
    · exact absurd rfl h
  | cons k rest ih =>
    intro le att sl _
    simp only [retryAux]
    cases hk : server k with
    | ok v => simp
    | error e =>
      by_cases hc : e.catchable
      · simp only [hc, if_true]
        exact ih (some e) (att + 1) _ (Or.inl rfl)
      · simp [hc]

/-- `(range' s n).take m = range' s m` whenever `m ≤ n`. -/
theorem take_range' : ∀ (m s n : Nat), m ≤ n →
    (List.range' s n).take m = List.range' s m := by
  intro m
  induction m with
  | zero => intro s n h; simp
  | succ m ih =>
    intro s n h
    cases n with
    | zero => omega
    | succ n =>
      rw [List.range'_succ, List.range'_succ, List.take_succ_cons,
        ih (s + 1) n (by omega)]

theorem retry_loop_attempts_le (cfg : BackendConfig) (server : Server α) :
    (retry_loop cfg server).attempts ≤ cfg.max_retries := by
  have h := (retryAux_attempts_bounds cfg.retry_backoff server
    (List.range' 1 cfg.max_retries) none 0 []).2
  simpa [retry_loop, List.length_range'] using h

theorem retry_loop_attempts_pos (cfg : BackendConfig) (server : Server α)
    (h : 1 ≤ cfg.max_retries) : 1 ≤ (retry_loop cfg server).attempts := by
  have hne : List.range' 1 cfg.max_retries ≠ [] := by
    intro hcon
    have := congrArg List.length hcon
    simp [List.length_range'] at this
    omega
  simpa [retry_loop] using
    retryAux_attempts_pos cfg.retry_backoff server
      (List.range' 1 cfg.max_retries) none 0 [] hne

theorem retry_loop_sleeps (cfg : BackendConfig) (server : Server α) :
    (retry_loop cfg server).sleeps =
      ((List.range' 1 (retry_loop cfg server).attempts).filter
        (catchFail server)).map (fun k : Nat => cfg.retry_backoff * (k : ℚ)) := by
  have h := retryAux_sleeps cfg.retry_backoff server
    (List.range' 1 cfg.max_retries) none 0 []
  have hle := retry_loop_attempts_le cfg server
  simp only [retry_loop] at h hle ⊢
  rw [h, take_range' _ 1 cfg.max_retries (by simpa using hle)]
  simp

theorem retry_loop_pre_catchable (cfg : BackendConfig) (server : Server α) :
    ∀ k, 1 ≤ k → k < (retry_loop cfg server).attempts →
      catchFail server k = true := by
  intro k hk1 hk2
  have hle := retry_loop_attempts_le cfg server
  have hklt : k - 1 < cfg.max_retries := by omega
  have hget : (List.range' 1 cfg.max_retries).getD (k - 1) 0 = k := by
    rw [List.getD_eq_getElem?_getD, List.getElem?_eq_getElem
      (by simpa [List.length_range'] using hklt)]
    simp [List.getElem_range']
    omega
  have h := retryAux_pre_catchable cfg.retry_backoff server
    (List.range' 1 cfg.max_retries) none 0 [] (k - 1)
    (by simp only [retry_loop] at hk2; omega)
  rwa [hget] at h

theorem retry_loop_result_isSome (cfg : BackendConfig) (server : Server α)
    (h : 1 ≤ cfg.max_retries) : (retry_loop cfg server).result.isSome := by
  have hne : List.range' 1 cfg.max_retries ≠ [] := by
    intro hcon
    have := congrArg List.length hcon
    simp [List.length_range'] at this
    omega
  exact retryAux_result_isSome cfg.retry_backoff server _ none 0 [] (Or.inr hne)

/-- When the first attempt raises an uncatchable exception, the loop stops
at once with that error. -/
theorem retry_loop_first_uncatchable (cfg : BackendConfig) (server : Server α)
    (e : BackendErr) (h : 1 ≤ cfg.max_retries) (hk : server 1 = .error e)
    (hc : e.catchable = false) :
    retry_loop cfg server = ⟨some (.error e), 1, []⟩ := by
  obtain ⟨n, hn⟩ : ∃ n, cfg.max_retries = n + 1 := ⟨cfg.max_retries - 1, by omega⟩
  simp only [retry_loop]
  rw [hn, List.range'_succ]
  simp [retryAux, hk, hc]

/-- When the first attempt succeeds, the loop returns at once. -/
theorem retry_loop_first_ok (cfg : BackendConfig) (server : Server α)
    (v : α) (h : 1 ≤ cfg.max_retries) (hk : server 1 = .ok v) :
    retry_loop cfg server = ⟨some (.ok v), 1, []⟩ := by
  obtain ⟨n, hn⟩ : ∃ n, cfg.max_retries = n + 1 := ⟨cfg.max_retries - 1, by omega⟩
  simp only [retry_loop]
  rw [hn, List.range'_succ]
  simp [retryAux, hk]

/-! ## Claim C3: the retry policy -/

/-- Counterexample to C3 as stated: `max_retries = 0` is a `BackendConfig`
("for every BackendConfig"), and there the retry loop makes zero attempts,
not at least one — `range(1, 0 + 1)` is empty and the loop body never runs. -/
theorem retry_loop_counterexample :
    (retry_loop { max_retries := 0 }
      (fun _ => .ok (⟨"ok", .null⟩ : BackendResponse))).attempts = 0 ∧
    ¬ 1 ≤ (retry_loop { max_retries := 0 }
      (fun _ => .ok (⟨"ok", .null⟩ : BackendResponse))).attempts :=
  ⟨rfl, by decide⟩

/-- **C3 (amended).** For every `BackendConfig` with `max_retries ≥ 1` the
retry loop performs between 1 and `max_retries` attempts, sleeps
`retry_backoff * k` seconds exactly after each attempt `k` that failed with a
retryable signal or a transport failure, and every attempt before the last
failed that way (so it retries only on those); in particular with
`max_retries = 3` against a server that always answers HTTP 503, exactly 3
attempts are made with sleeps `backoff*1, backoff*2, backoff*3` and the
retryable failure is what is finally surfaced. -/
theorem retry_policy_spec :
    ∀ (cfg : BackendConfig) (server : Server BackendResponse),
      1 ≤ cfg.max_retries →
      (1 ≤ (retry_loop cfg server).attempts ∧
        (retry_loop cfg server).attempts ≤ cfg.max_retries) ∧
      ((retry_loop cfg server).sleeps =
        ((List.range' 1 (retry_loop cfg server).attempts).filter
          (catchFail server)).map (fun k : Nat => cfg.retry_backoff * (k : ℚ))) ∧
      (∀ k, 1 ≤ k → k < (retry_loop cfg server).attempts →
        catchFail server k = true) ∧
      (∀ (cfg3 : BackendConfig) (text : String) (body : Option JValue),
        cfg3.max_retries = 3 →
        retry_loop cfg3 (fun _ => ollamaRequest (.response 503 text body)) =
          ⟨some (.error (.retryable text)), 3,
           [cfg3.retry_backoff * 1, cfg3.retry_backoff * 2,
            cfg3.retry_backoff * 3]⟩) := by
  intro cfg server h
  refine ⟨⟨retry_loop_attempts_pos cfg server h, retry_loop_attempts_le cfg server⟩,
    retry_loop_sleeps cfg server, retry_loop_pre_catchable cfg server, ?_⟩
  intro cfg3 text body h3
  have hreq : ollamaRequest (.response 503 text body) = .error (.retryable text) := by
    simp [ollamaRequest]
  simp only [retry_loop, h3]
  show retryAux _ _ [1, 2, 3] none 0 [] = _
  simp [retryAux, hreq, BackendErr.catchable]

/-- Witness for C3 (amended) at `max_retries = 3`, `retry_backoff = 2` and an
always-503 server. -/
theorem retry_policy_spec_witness :
    1 ≤ (retry_loop { max_retries := 3, retry_backoff := 2 }
      (fun _ => (.error (.retryable "503") : Except BackendErr BackendResponse))).attempts ∧
    (retry_loop { max_retries := 3, retry_backoff := 2 }
      (fun _ => (.error (.retryable "503") : Except BackendErr BackendResponse))).attempts
      ≤ (({ max_retries := 3, retry_backoff := 2 } : BackendConfig)).max_retries :=
  (retry_policy_spec { max_retries := 3, retry_backoff := 2 }
    (fun _ => .error (.retryable "503")) (by decide)).1

/-! ## Claim C4: non-retryable errors and the error marker -/

/-- **C4.** A non-retryable backend error ends the loop at the attempt that
raised it (raised on the first attempt, it causes exactly one attempt), every
failure escaping the retry loop is converted into a `BackendResponse` whose
content is the fixed `"[Backend error]"` marker followed by the error text
and whose raw payload records that text, and with at least one configured
attempt the wrapped `generate` always yields a response rather than
propagating an exception. -/
theorem backend_error_not_retried :
    ∀ (cfg : BackendConfig) (server : Server BackendResponse),
      (∀ k m, 1 ≤ k → k ≤ (retry_loop cfg server).attempts →
        server k = .error (.backendError m) →
        (retry_loop cfg server).attempts = k) ∧
      (∀ m, 1 ≤ cfg.max_retries → server 1 = .error (.backendError m) →
        (retry_loop cfg server).attempts = 1 ∧
        wrap_result cfg server = some ⟨"[Backend error] " ++ m, rawError m⟩) ∧
      (∀ e, (retry_loop cfg server).result = some (.error e) →
        wrap_result cfg server =
          some ⟨"[Backend error] " ++ e.msg, rawError e.msg⟩ ∧
        ("[Backend error] ").data <+: ("[Backend error] " ++ e.msg).data) ∧
      (1 ≤ cfg.max_retries → (wrap_result cfg server).isSome = true) := by
  intro cfg server
  refine ⟨?_, ?_, ?_, ?_⟩
  · intro k m hk1 hk2 hsrv
    by_contra hne
    have hlt : k < (retry_loop cfg server).attempts := by omega
    have hcf := retry_loop_pre_catchable cfg server k hk1 hlt
    simp [catchFail, hsrv, BackendErr.catchable] at hcf
  · intro m hmr hsrv
    have hloop := retry_loop_first_uncatchable cfg server (.backendError m)
      hmr hsrv rfl
    constructor
    · rw [hloop]
    · simp [wrap_result, hloop, BackendErr.msg]
  · intro e he
    refine ⟨by simp [wrap_result, he], ?_⟩
    rw [String.data_append]
    exact List.prefix_append _ _
  · intro hmr
    have hs := retry_loop_result_isSome cfg server hmr
    simp only [wrap_result]
    cases hres : (retry_loop cfg server).result with
    | none => rw [hres] at hs; simp at hs
    | some x => cases x <;> simp

/-- Witness for C4: a server that always answers HTTP 403 (non-retryable)
causes exactly one attempt and an error-marked response. -/
theorem backend_error_not_retried_witness :
    (retry_loop { max_retries := 3 }
      (fun _ => (.error (.backendError "403") : Except BackendErr BackendResponse))).attempts
      = 1 ∧
    wrap_result { max_retries := 3 }
      (fun _ => .error (.backendError "403")) =
      some ⟨"[Backend error] " ++ "403", rawError "403"⟩ :=
  (backend_error_not_retried { max_retries := 3 }
    (fun _ => .error (.backendError "403"))).2.1 "403" (by decide) rfl

/-! ## Claim C10: malformed 2xx payloads are empty successes, not errors -/

/-- **C10.** On an HTTP 2xx response whose JSON object payload lacks the
expected fields (no `message`, or a `message` object without `content`), the
Ollama client's `generate` returns a successful `BackendResponse` with empty
content and the full payload as `raw` — not an error-marked response. -/
theorem ollama_malformed_success :
    ∀ (cfg : BackendConfig) (exchanges : Nat → HTTPExchange) (status : Nat)
      (text : String) (fields : List (String × JValue)),
      1 ≤ cfg.max_retries →
      exchanges 1 = .response status text (some (.obj fields)) →
      200 ≤ status → status < 300 →
      (jlookup fields "message" = none ∨
        ∃ mf, jlookup fields "message" = some (.obj mf) ∧
          jlookup mf "content" = none) →
      ollamaGenerate cfg exchanges = some ⟨"", .obj fields⟩ ∧
      ¬ ("[Backend error] ").data <+: ("" : String).data := by
  intro cfg exs status text fields hmr hex h2 h3 hfields
  have hok : responseOk status = true := by
    simp only [responseOk, Bool.or_eq_true, decide_eq_true_eq]
    omega
  have hreq : ollamaRequest (exs 1) = .ok ⟨"", .obj fields⟩ := by
    rw [hex]
    simp only [ollamaRequest]
    rw [if_neg (by omega), if_pos hok]
    rcases hfields with hnone | ⟨mf, hmf, hcontent⟩
    · simp only [pyDictGetD, hnone, Option.getD_none]
      simp [jlookup, jText]
    · simp only [pyDictGetD, hmf, Option.getD_some, hcontent, Option.getD_none]
      simp [jText]
  have hloop := retry_loop_first_ok cfg (fun k => ollamaRequest (exs k))
    ⟨"", .obj fields⟩ hmr hreq
  exact ⟨by simp [ollamaGenerate, wrap_result, hloop], by decide⟩

/-- Witness for C10: a 200 response whose payload has no `message` field. -/
theorem ollama_malformed_success_witness :
    ollamaGenerate { max_retries := 3 }
      (fun _ => .response 200 "" (some (.obj [("done", .bool true)]))) =
      some ⟨"", .obj [("done", .bool true)]⟩ :=
  (ollama_malformed_success { max_retries := 3 }
    (fun _ => .response 200 "" (some (.obj [("done", .bool true)])))
    200 "" [("done", .bool true)] (by decide) rfl (by decide) (by decide)
    (Or.inl rfl)).1

/-! ## Dialogue helper lemmas -/

theorem getLastD_eq_getD (l : List String) (d : String) (h : l ≠ []) :
    l.getLastD d = l.getD (l.length - 1) "" := by
  have hlen : l.length - 1 < l.length := by
    have : l.length ≠ 0 := fun hc => h (List.length_eq_zero.mp hc)
    omega
  rw [List.getLastD_eq_getLast?, List.getLast?_eq_getElem?,
    List.getD_eq_getElem?_getD, List.getElem?_eq_getElem hlen]
  simp

theorem runExperts_length (b : String → String) :
    ∀ (es : List ExpertProfile) (last : String),
      (runExperts b es last).1.length = es.length := by
  intro es
  induction es with
  | nil => intro last; simp [runExperts]
  | cons e rest ih => intro last; simp [runExperts, ih]

theorem runExperts_snd (b : String → String) :
    ∀ (es : List ExpertProfile) (last : String),
      (runExperts b es last).2 = (runExperts b es last).1.getLastD last := by
  intro es
  induction es with
  | nil => intro last; simp [runExperts]
  | cons e rest ih =>
    intro last
    simp only [runExperts, List.getLastD_cons]
    exact ih (entryText b e last)

theorem runExperts_getD (b : String → String) :
    ∀ (es : List ExpertProfile) (last : String) (j : Nat), j < es.length →
      (runExperts b es last).1.getD j "" =
        entryText b (es.getD j defaultExpert)
          (if j = 0 then last else (runExperts b es last).1.getD (j - 1) "") := by
  intro es
  induction es with
  | nil => intro last j hj; simp at hj
  | cons e rest ih =>
    intro last j hj
    cases j with
    | zero => simp [runExperts]
    | succ j =>
      have hj' : j < rest.length := by simpa using hj
      simp only [runExperts, List.getD_cons_succ, List.getD_cons_zero,
        Nat.succ_ne_zero, if_false, Nat.add_sub_cancel]
      rw [ih (entryText b e last) j hj']
      cases j with
      | zero => simp
      | succ jj => simp

theorem runTurns_length (b : String → String) (es : List ExpertProfile) :
    ∀ (n : Nat) (last : String),
      (runTurns b es n last).1.length = es.length * n := by
  intro n
  induction n with
  | zero => intro last; simp [runTurns]
  | succ n ih =>
    intro last
    simp only [runTurns, List.length_append, runExperts_length, ih,
      Nat.mul_succ]
    omega

/-- The transcript is a chain: every entry is `entryText` of the persona at
its index modulo the roster length, applied to the preceding entry (the
seeded message for the very first entry). -/
theorem runTurns_chain (b : String → String) (es : List ExpertProfile) :
    ∀ (n : Nat) (last : String) (j : Nat), j < es.length * n →
      (runTurns b es n last).1.getD j "" =
        entryText b (es.getD (j % es.length) defaultExpert)
          (if j = 0 then last
           else (runTurns b es n last).1.getD (j - 1) "") := by
  intro n
  induction n with
  | zero => intro last j hj; simp at hj
  | succ n ih =>
    intro last j hj
    have hN : 0 < es.length := by
      rcases Nat.eq_zero_or_pos es.length with h0 | h0
      · rw [h0] at hj; simp at hj
      · exact h0
    have hPlen : (runExperts b es last).1.length = es.length :=
      runExperts_length b es last
    simp only [runTurns]
    by_cases hcase : j < es.length
    · rw [List.getD_append _ _ _ _ (by omega),
        runExperts_getD b es last j hcase, Nat.mod_eq_of_lt hcase]
      by_cases hj0 : j = 0
      · simp [hj0]
      · rw [if_neg hj0, if_neg hj0, List.getD_append _ _ _ _ (by omega)]
    · push_neg at hcase
      obtain ⟨k, hk⟩ : ∃ k, j = es.length + k := ⟨j - es.length, by omega⟩
      have hmul : es.length * (n + 1) = es.length * n + es.length :=
        Nat.mul_succ es.length n
      have hklt : k < es.length * n := by omega
      subst hk
      have hidx : es.length + k - (runExperts b es last).1.length = k := by
        omega
      rw [List.getD_append_right _ _ _ _ (by omega), hidx,
        ih (runExperts b es last).2 k hklt, Nat.add_mod_left]
      by_cases hk0 : k = 0
      · subst hk0
        rw [if_pos rfl, if_neg (by omega), runExperts_snd,
          getLastD_eq_getD _ _ (by
            intro hc
            rw [hc] at hPlen
            simp at hPlen
            omega),
          List.getD_append _ _ _ _ (by omega)]
        have hix : es.length + 0 - 1 = (runExperts b es last).1.length - 1 := by
          omega
        rw [hix]
      · rw [if_neg hk0, if_neg (by omega),
          List.getD_append_right _ _ _ _ (by omega)]
        have hix : es.length + k - 1 - (runExperts b es last).1.length
            = k - 1 := by
          omega
        rw [hix]

/-! ## Claim C1: transcript size, order and entry format -/

/-- **C1.** For a roster of `N` personas and `turns = T`, the dialogue
transcript has exactly `N * T` entries, ordered by pass and then by persona
in roster iteration order, and the entry of persona `i` in pass `p` (at
index `p * N + i`) is the string `name ++ ": " ++ reply` where `reply` is the
backend's answer to that persona's prompt over the preceding entry (the
seeded message for the very first entry). -/
theorem collaborative_dialogue_transcript_spec :
    ∀ (b : String → String) (es : List ExpertProfile)
      (topic feedback : String) (turns : Nat),
      (collaborative_dialogue b es topic feedback turns).length
        = es.length * turns ∧
      ∀ p i, p < turns → i < es.length →
        (collaborative_dialogue b es topic feedback turns).getD
            (p * es.length + i) "" =
          (es.getD i defaultExpert).name ++ ": " ++
            b (promptFor (es.getD i defaultExpert)
              (if p * es.length + i = 0 then seededPrompt topic feedback
               else (collaborative_dialogue b es topic feedback turns).getD
                 (p * es.length + i - 1) "")) := by
  intro b es topic feedback turns
  constructor
  · exact runTurns_length b es turns _
  · intro p i hp hi
    have hj : p * es.length + i < es.length * turns := by
      have h1 : p + 1 ≤ turns := hp
      calc p * es.length + i < (p + 1) * es.length := by
            rw [Nat.succ_mul]; omega
        _ ≤ turns * es.length := Nat.mul_le_mul_right _ h1
        _ = es.length * turns := Nat.mul_comm _ _
    have hmod : (p * es.length + i) % es.length = i := by
      rw [Nat.mul_comm, Nat.mul_add_mod, Nat.mod_eq_of_lt hi]
    have hchain := runTurns_chain b es turns (seededPrompt topic feedback)
      (p * es.length + i) hj
    simp only [collaborative_dialogue]
    rw [hchain, hmod]
    rfl

/-- Witness for C1 on a two-persona roster with two passes: four entries, and
the last one belongs to persona `B`. -/
theorem collaborative_dialogue_transcript_spec_witness :
    (collaborative_dialogue (fun _ => "ok")
      [⟨"A", "SA", ""⟩, ⟨"B", "SB", ""⟩] "t" "" 2).length = 4 ∧
    (collaborative_dialogue (fun _ => "ok")
      [⟨"A", "SA", ""⟩, ⟨"B", "SB", ""⟩] "t" "" 2).getD 3 "" = "B: ok" := by
  have h := collaborative_dialogue_transcript_spec (fun _ => "ok")
    [⟨"A", "SA", ""⟩, ⟨"B", "SB", ""⟩] "t" "" 2
  have h2 := h.2 1 1 (by decide) (by decide)
  constructor
  · rw [h.1]
    decide
  · revert h2
    decide

/-! ## Claim C2: bounded-context property of the dialogue -/

/-- **C2.** Every transcript entry after the first is generated from only
the persona at its position (modulo the roster length) and the text of the
immediately preceding entry; consequently two dialogues over the same
backend and roster whose `(i-1)`-th entries agree have equal `i`-th entries,
whatever their topics, human feedback, turn counts, or earlier entries. -/
theorem collaborative_dialogue_context_boundary :
    ∀ (b : String → String) (es : List ExpertProfile),
      (∀ (topic feedback : String) (turns i : Nat),
        1 ≤ i →
        i < (collaborative_dialogue b es topic feedback turns).length →
        (collaborative_dialogue b es topic feedback turns).getD i "" =
          entryText b (es.getD (i % es.length) defaultExpert)
            ((collaborative_dialogue b es topic feedback turns).getD
              (i - 1) "")) ∧
      (∀ (t1 f1 : String) (T1 : Nat) (t2 f2 : String) (T2 : Nat) (i : Nat),
        1 ≤ i →
        i < (collaborative_dialogue b es t1 f1 T1).length →
        i < (collaborative_dialogue b es t2 f2 T2).length →
        (collaborative_dialogue b es t1 f1 T1).getD (i - 1) "" =
          (collaborative_dialogue b es t2 f2 T2).getD (i - 1) "" →
        (collaborative_dialogue b es t1 f1 T1).getD i "" =
          (collaborative_dialogue b es t2 f2 T2).getD i "") := by
  intro b es
  have key : ∀ (topic feedback : String) (turns i : Nat),
      1 ≤ i →
      i < (collaborative_dialogue b es topic feedback turns).length →
      (collaborative_dialogue b es topic feedback turns).getD i "" =
        entryText b (es.getD (i % es.length) defaultExpert)
          ((collaborative_dialogue b es topic feedback turns).getD
            (i - 1) "") := by
    intro t f T i hi1 hilen
    simp only [collaborative_dialogue] at hilen ⊢
    rw [runTurns_length b es T] at hilen
    rw [runTurns_chain b es T (seededPrompt t f) i hilen,
      if_neg (by omega)]
  refine ⟨key, ?_⟩
  intro t1 f1 T1 t2 f2 T2 i hi h1 h2 hprev
  rw [key t1 f1 T1 i hi h1, key t2 f2 T2 i hi h2, hprev]

/-- Witness for C2: two dialogues with different topics, feedback and turn
counts agree at entry 2 because they agree at entry 1. -/
theorem collaborative_dialogue_context_boundary_witness :
    (collaborative_dialogue (fun _ => "ok")
      [⟨"A", "SA", ""⟩, ⟨"B", "SB", ""⟩] "t1" "" 2).getD 2 "" =
    (collaborative_dialogue (fun _ => "ok")
      [⟨"A", "SA", ""⟩, ⟨"B", "SB", ""⟩] "t2" "fb" 3).getD 2 "" :=
  (collaborative_dialogue_context_boundary (fun _ => "ok")
    [⟨"A", "SA", ""⟩, ⟨"B", "SB", ""⟩]).2 "t1" "" 2 "t2" "fb" 3 2
    (by decide) (by decide) (by decide) (by decide)

end SciStorm
